import Mathlib

/-!
Verification of the genauo object-counting app's core: the session/image
data model with its persistence layer (StorageService), the counting-review
workflow (ReviewScreen), detection synthesis (MLService), and CSV export.

Modelling conventions for the shallow embedding of the TypeScript source:
* JavaScript numbers that only ever hold integers (counts, corrections,
  grid indices) are modelled as `Nat`; screen/image coordinates, which are
  divided and halved, are modelled as `ℚ` with exact arithmetic.
* `Date` values are modelled by their canonical string rendering (they are
  only ever compared by identity or interpolated into strings).
* Fresh identifiers produced from `Date.now()` / `Math.random()` are passed
  in as explicit parameters.
* Async storage round-trips are elided: the session collection is threaded
  through every operation as an explicit `List Session` value.
* A thrown `Error('Session not found')` is modelled as
  `Except.error StorageError.notFound`.
-/

namespace Genauo

/-- Embeds `BoundingBox` from `src/types/index.ts`. -/
structure BoundingBox where
  x : ℚ
  y : ℚ
  width : ℚ
  height : ℚ
  deriving Repr, DecidableEq

/-- Embeds `Detection` from `src/types/index.ts`. The source's optional
`class` field is called `cls` because `class` is a Lean keyword. -/
structure Detection where
  id : String
  bbox : BoundingBox
  confidence : ℚ
  cls : Option String
  manual : Option Bool
  deriving Repr, DecidableEq

/-- Embeds `ImageCount` from `src/types/index.ts`; `timestamp` holds the
canonical string rendering of the `Date`. -/
structure ImageCount where
  id : String
  path : String
  count : Nat
  timestamp : String
  corrections : Nat
  detections : List Detection
  deriving Repr, DecidableEq

/-- Embeds `Session` from `src/types/index.ts`. -/
structure Session where
  id : String
  name : String
  objectType : Option String
  createdAt : String
  images : List ImageCount
  totalCount : Nat
  deriving Repr, DecidableEq

/-- Errors thrown by StorageService (`throw new Error('Session not found')`). -/
inductive StorageError where
  | notFound
  deriving Repr, DecidableEq

/-- Embeds `session.images.reduce((sum, img) => sum + img.count, 0)`. -/
def sumCounts (images : List ImageCount) : Nat :=
  images.foldl (fun sum img => sum + img.count) 0

/-- The derived invariant of §3 of the spec: `totalCount` equals the sum of
the per-image counts. -/
def sessionInvariant (s : Session) : Prop :=
  s.totalCount = sumCounts s.images

instance (s : Session) : Decidable (sessionInvariant s) := by
  unfold sessionInvariant; infer_instance

/-- Embeds `StorageService.getSession`:
`sessions.find(s => s.id === sessionId) || null`. -/
def getSession (sessions : List Session) (sessionId : String) : Option Session :=
  sessions.find? (fun s => s.id == sessionId)

/-- Embeds `StorageService.createSession`. The source performs no validation
of `name`; it builds the session, `unshift`s it onto the collection and
persists. The fresh id (`session_${Date.now()}`) and the creation timestamp
are supplied as parameters. Returns the new session and the new collection. -/
def createSession (sessions : List Session) (freshId createdAt : String)
    (name : String) (objectType : Option String) : Session × List Session :=
  let session : Session :=
    { id := freshId, name := name, objectType := objectType,
      createdAt := createdAt, images := [], totalCount := 0 }
  (session, session :: sessions)

/-- Embeds `StorageService.updateSession`: `findIndex` on the id, replace in
place when found (`index >= 0`), silently do nothing otherwise. Replacing
the first index at which `findIndex` matches is written as direct recursion. -/
def updateSession : List Session → Session → List Session
  | [], _ => []
  | t :: ts, s => if t.id == s.id then s :: ts else t :: updateSession ts s

/-- Embeds `StorageService.deleteSession`: filter the id out. -/
def deleteSession (sessions : List Session) (sessionId : String) : List Session :=
  sessions.filter (fun s => s.id != sessionId)

/-- Embeds `StorageService.addImageToSession`: throws when the session is
absent; otherwise pushes a fresh `ImageCount` (corrections 0), recomputes
`totalCount` as the sum of all image counts and writes back via
`updateSession`. -/
def addImageToSession (sessions : List Session) (sessionId : String)
    (freshImgId timestamp imagePath : String) (count : Nat)
    (detections : List Detection) : Except StorageError (List Session) :=
  match getSession sessions sessionId with
  | none => .error .notFound
  | some session =>
    let imageCount : ImageCount :=
      { id := freshImgId, path := imagePath, count := count,
        timestamp := timestamp, corrections := 0, detections := detections }
    let images := session.images ++ [imageCount]
    let session := { session with images := images, totalCount := sumCounts images }
    .ok (updateSession sessions session)

/-- Helper for `updateImageCount`: the source's `session.images.find(...)`
returns a reference whose in-place mutation updates the first image whose id
matches; written as direct recursion replacing the first match. -/
def setImageCount : List ImageCount → String → Nat → Nat → List ImageCount
  | [], _, _, _ => []
  | img :: rest, imageId, newCount, corrections =>
    if img.id == imageId then
      { img with count := newCount, corrections := corrections } :: rest
    else img :: setImageCount rest imageId newCount corrections

/-- Embeds `StorageService.updateImageCount`: throws when the session is
absent; when the image is absent the body of `if (image)` is skipped and
nothing is written; otherwise the image's count and corrections are set,
`totalCount` recomputed, and the session written back. -/
def updateImageCount (sessions : List Session) (sessionId imageId : String)
    (newCount corrections : Nat) : Except StorageError (List Session) :=
  match getSession sessions sessionId with
  | none => .error .notFound
  | some session =>
    match session.images.find? (fun img => img.id == imageId) with
    | none => .ok sessions
    | some _ =>
      let images := setImageCount session.images imageId newCount corrections
      let session := { session with images := images, totalCount := sumCounts images }
      .ok (updateSession sessions session)

/-- Embeds the image-removal mutation of `SessionScreen.deleteImage`
(src/screens/SessionScreen.tsx lines 81-92): filter the image out of the
loaded session value, recompute `totalCount`, write back via
`updateSession`. Returns the updated session value and the new collection. -/
def deleteImageFromSession (sessions : List Session) (session : Session)
    (imageId : String) : Session × List Session :=
  let updatedImages := session.images.filter (fun img => img.id != imageId)
  let updatedSession :=
    { session with images := updatedImages, totalCount := sumCounts updatedImages }
  (updatedSession, updateSession sessions updatedSession)

/-- Embeds `StorageService.exportSessionAsCSV`: header line, one appended
line per image, then a blank line and the total line, every line terminated
by a newline. -/
def exportSessionAsCSV (sessions : List Session) (sessionId : String) :
    Except StorageError String :=
  match getSession sessions sessionId with
  | none => .error .notFound
  | some session =>
    let csv := "Image ID,Count,Timestamp,Corrections\n"
    let csv := session.images.foldl
      (fun csv img =>
        csv ++ img.id ++ "," ++ toString img.count ++ "," ++ img.timestamp
          ++ "," ++ toString img.corrections ++ "\n") csv
    .ok (csv ++ "\n" ++ "Total Count:," ++ toString session.totalCount ++ "\n")

/-- Model of JavaScript's `String.prototype.trim`: drop whitespace from
both ends (written over the character list so that it evaluates). -/
def jsTrim (s : String) : String :=
  ⟨((s.data.dropWhile Char.isWhitespace).reverse.dropWhile Char.isWhitespace).reverse⟩

/-- Embeds the `createSession` handler of `NewSessionScreen`
(src/unnamed/part_001): when the trimmed name is empty it alerts and
returns without touching storage (`none`); otherwise it calls
`StorageService.createSession` with the trimmed name and with
`objectType.trim() || undefined` (empty string is falsy, hence `none`). -/
def newSessionScreenCreate (sessions : List Session) (freshId createdAt : String)
    (sessionName objectType : String) : Option (Session × List Session) :=
  if (jsTrim sessionName).isEmpty then none
  else some (createSession sessions freshId createdAt (jsTrim sessionName)
    (if (jsTrim objectType).isEmpty then none else some (jsTrim objectType)))

/-- Embeds the JavaScript `parseInt(s, 10)` used by MLService and
ReviewScreen: skip leading whitespace, read an optional sign, then the
longest run of decimal digits; when no digit follows, the result is `NaN`,
modelled as `none`. `parseInt` never throws. -/
def jsParseInt (s : String) : Option Int :=
  let cs := s.data.dropWhile Char.isWhitespace
  let signRest : Int × List Char :=
    match cs with
    | '-' :: r => (-1, r)
    | '+' :: r => (1, r)
    | r => (1, r)
  let ds := signRest.2.takeWhile Char.isDigit
  if ds.isEmpty then none
  else some (signRest.1 * (ds.foldl (fun n c => 10 * n + (c.toNat - '0'.toNat)) 0 : Nat))

/-- Embeds the count extraction of `MLService.callOpenAIVision`
(src/unnamed/part_002 lines 126-135). The source wraps
`count = parseInt(result, 10)` in `try`/`catch` with a digit-run regex
fallback in the `catch`, but JavaScript's `parseInt` never throws — it
returns `NaN` — so the fallback is unreachable and the extracted value is
exactly `parseInt(result, 10)` (with `NaN` modelled as `none`). -/
def extractCount (result : String) : Option Int :=
  jsParseInt result

/-- The first maximal run of decimal digits anywhere in the string, the
model of `result.match(/\d+/)` giving `numbers[0]`. -/
def firstDigitRun (s : String) : Option Nat :=
  let cs := s.data.dropWhile (fun c => !c.isDigit)
  if cs.isEmpty then none
  else some ((cs.takeWhile Char.isDigit).foldl (fun n c => 10 * n + (c.toNat - '0'.toNat)) 0)

/-- The extraction rule as the specification states it: parse the response
directly as an integer; when the direct parse fails, take the first run of
digits anywhere in the response; when there are no digits, the count is 0.
This is what the source's dead `catch` branch was evidently meant to do. -/
def claimedExtractCount (result : String) : Int :=
  match jsParseInt result with
  | some n => n
  | none =>
    match firstDigitRun result with
    | some n => (n : Int)
    | none => 0

/-- Model of `Math.ceil(Math.sqrt(count))` for a natural `count`, using the
exact real square root (floating-point rounding of `Math.sqrt` is out of
scope for integer inputs of this size). -/
def ceilSqrt (n : Nat) : Nat :=
  if Nat.sqrt n * Nat.sqrt n = n then Nat.sqrt n else Nat.sqrt n + 1

/-- The `cols` value of `MLService.generatePlaceholderDetections`. -/
def gridCols (count : Nat) : Nat := ceilSqrt count

/-- The `rows` value of `MLService.generatePlaceholderDetections`:
`Math.ceil(count / cols)`, which for positive `cols` is
`(count + cols - 1) / cols` in exact arithmetic. For `count = 0` the source
computes `0 / 0 = NaN`, and the outer loop's `row < rows` comparison with
`NaN` is always false, so the loop body never runs — faithfully modelled by
`rows = 0` (and indeed `(0 + 0 - 1) / 0 = 0` here). -/
def gridRows (count : Nat) : Nat := (count + gridCols count - 1) / gridCols count

/-- The detection literal pushed by `generatePlaceholderDetections` for
grid cell `(row, col)` at running index `index`: uniform 100-pixel spacing
from offset 50, fixed 60×60 size, confidence 1.0, class `object`, not
manual. -/
def placeholderDetection (index row col : Nat) : Detection :=
  { id := "obj_" ++ toString index,
    bbox := { x := 50 + (col : ℚ) * 100, y := 50 + (row : ℚ) * 100,
              width := 60, height := 60 },
    confidence := 1, cls := some "object", manual := some false }

/-- The inner `for (let col = 0; col < cols && index < count; col++)` loop
of `generatePlaceholderDetections`, recursing on the remaining column
count; returns the accumulated detections and the final `index`. -/
def genCols (count row : Nat) : Nat → Nat → Nat → List Detection → List Detection × Nat
  | _, 0, index, acc => (acc, index)
  | col, colsLeft + 1, index, acc =>
    if index < count then
      genCols count row (col + 1) colsLeft (index + 1)
        (acc ++ [placeholderDetection index row col])
    else (acc, index)

/-- The outer `for (let row = 0; row < rows && index < count; row++)` loop
of `generatePlaceholderDetections`, recursing on the remaining row count. -/
def genRows (count cols : Nat) : Nat → Nat → Nat → List Detection → List Detection
  | _, 0, _, acc => acc
  | row, rowsLeft + 1, index, acc =>
    if index < count then
      let p := genCols count row 0 cols index acc
      genRows count cols (row + 1) rowsLeft p.2 p.1
    else acc

/-- Embeds `MLService.generatePlaceholderDetections`
(src/unnamed/part_002 lines 149-176). -/
def generatePlaceholderDetections (count : Nat) : List Detection :=
  genRows count (gridCols count) 0 (gridRows count) 0 []

/-- Embeds `MLService.createManualDetection` (src/unnamed/part_002 lines
181-194): a manual detection of the given size centred at `(x, y)`; the
fresh id (`manual_${Date.now()}_${Math.random()}`) is a parameter. -/
def createManualDetection (freshId : String) (x y : ℚ) (size : ℚ := 40) : Detection :=
  { id := freshId,
    bbox := { x := x - size / 2, y := y - size / 2, width := size, height := size },
    confidence := 1, cls := some "manual", manual := some true }

/-- The environment's answer to one remote detection request: either some
thrown error (missing image file, network failure, non-ok API status) or a
textual response body. -/
inductive DetectorOutcome where
  | failed
  | responded (content : String)
  deriving Repr, DecidableEq

/-- Alerts raised inside `MLService.detectObjects`. -/
inductive MLAlert where
  | apiKeyRequired
  | detectionError
  deriving Repr, DecidableEq

/-- The count that flows from `callOpenAIVision` into
`generatePlaceholderDetections`. A `NaN` count (`none`) and a negative
count both make `Math.sqrt` yield `NaN`, so `cols` is `NaN`, every loop
comparison is false and no detection is produced. -/
def detectionsOfCount : Option Int → List Detection
  | none => []
  | some n => if n < 0 then [] else generatePlaceholderDetections n.toNat

/-- Embeds `MLService.detectObjects` (src/unnamed/part_002 lines 30-75):
with no API key it alerts and returns `[]`; any error thrown inside the
`try` is caught, alerted as `Detection Error`, and `[]` is returned — the
function never throws to its caller and a failure is indistinguishable,
by return value, from a genuine zero count. On success the trimmed
response text is parsed and placeholders are synthesized. -/
def detectObjects (apiKey : String) (outcome : DetectorOutcome) :
    List Detection × Option MLAlert :=
  if apiKey = "" then ([], some .apiKeyRequired)
  else
    match outcome with
    | .failed => ([], some .detectionError)
    | .responded content =>
      (detectionsOfCount (extractCount (jsTrim content)), none)

/-- The two review modes of `ReviewScreen`. -/
inductive Mode where
  | auto
  | manual
  deriving Repr, DecidableEq

/-- The state hooks of `ReviewScreen` that the counting workflow reads and
writes (src/screens/ReviewScreen.tsx lines 39-48). -/
structure ReviewState where
  detections : List Detection
  isProcessing : Bool
  manualCorrections : Nat
  mode : Mode
  autoCount : Option Nat
  manualCountInput : String
  showApiKeyInput : Bool
  imageWidth : ℚ
  imageHeight : ℚ
  deriving Repr, DecidableEq

/-- Embeds `parseInt(text) || 0`: `NaN` is falsy, so it becomes 0 (a parsed
0 also stays 0). -/
def jsParseIntOr0 (s : String) : Int :=
  match jsParseInt s with
  | none => 0
  | some n => n

/-- Embeds `ReviewScreen.handleManualCountChange` (lines 50-59): store the
typed text, and when the parsed count is positive and differs from the
current number of detections, clear the detections and reset corrections. -/
def handleManualCountChange (st : ReviewState) (text : String) : ReviewState :=
  let st := { st with manualCountInput := text }
  let count := jsParseIntOr0 text
  if count > 0 ∧ count ≠ (st.detections.length : Int) then
    { st with detections := [], manualCorrections := 0 }
  else st

/-- Embeds `ReviewScreen.handleImagePress` (lines 138-155): in manual mode
while not processing, append a manual detection at the tap location scaled
by `scaleX = imageSize.width / screenWidth` and
`scaleY = imageSize.height / imageSize.height`, increment corrections, and
re-sync the numeric field to the new detection count. The fresh detection
id is a parameter. (ℚ division by zero yields 0 where JavaScript yields
NaN; the theorems only use this function under nonzero-size hypotheses,
which hold in every state reachable after `setupImage`.) -/
def handleImagePress (st : ReviewState) (screenWidth locationX locationY : ℚ)
    (freshId : String) : ReviewState :=
  if st.mode = Mode.manual ∧ st.isProcessing = false then
    let scaleX := st.imageWidth / screenWidth
    let scaleY := st.imageHeight / st.imageHeight
    let newDetection := createManualDetection freshId (locationX * scaleX) (locationY * scaleY)
    { st with detections := st.detections ++ [newDetection],
              manualCorrections := st.manualCorrections + 1,
              manualCountInput := toString (st.detections.length + 1) }
  else st

/-- Embeds `ReviewScreen.removeDetection` (lines 157-166): filter the id
out, increment corrections, and in manual mode re-sync the numeric field to
the new detection count. -/
def removeDetection (st : ReviewState) (id : String) : ReviewState :=
  let newDetections := st.detections.filter (fun d => d.id != id)
  let st := { st with detections := newDetections,
                      manualCorrections := st.manualCorrections + 1 }
  if st.mode = Mode.manual then
    { st with manualCountInput := toString newDetections.length }
  else st

/-- Embeds `ReviewScreen.clearAll` (lines 168-173). -/
def clearAll (st : ReviewState) : ReviewState :=
  { st with detections := [], manualCorrections := 0, autoCount := none,
            manualCountInput := "" }

/-- Alerts raised by `ReviewScreen.processImageWithAI`. The `catch` branch
(`Processing Error`) is unreachable because `detectObjects` never throws. -/
inductive ReviewAlert where
  | noObjectsDetected
  deriving Repr, DecidableEq

/-- Embeds `ReviewScreen.processImageWithAI` (lines 104-136): set
processing, clear the detections, bail out to the API-key modal when the
key is empty; otherwise run `detectObjects`, store its result and its
length as `autoCount`, clear processing, and alert `No Objects Detected`
when the result is empty. Returns the new state, the alert raised inside
MLService (if any) and the alert raised here (if any). -/
def processImageWithAI (st : ReviewState) (apiKey : String)
    (outcome : DetectorOutcome) : ReviewState × Option MLAlert × Option ReviewAlert :=
  let st := { st with isProcessing := true, detections := [] }
  if apiKey = "" then
    ({ st with showApiKeyInput := true, isProcessing := false }, none, none)
  else
    let r := detectObjects apiKey outcome
    let st := { st with detections := r.1, autoCount := some r.1.length,
                        isProcessing := false }
    (st, r.2, if r.1.length = 0 then some ReviewAlert.noObjectsDetected else none)

/-! Helper lemmas about the repository. -/

/-- A session found by `getSession` carries the looked-up id. -/
lemma getSession_id {sessions : List Session} {sid : String} {s : Session}
    (h : getSession sessions sid = some s) : s.id = sid := by
  simpa using List.find?_some (show sessions.find? (fun x => x.id == sid) = some s from h)

/-- When no stored session has the written session's id, `updateSession`
leaves the collection unchanged. -/
lemma updateSession_of_absent (sessions : List Session) (s : Session)
    (h : getSession sessions s.id = none) : updateSession sessions s = sessions := by
  rw [getSession, List.find?_eq_none] at h
  induction sessions with
  | nil => rfl
  | cons t ts ih =>
    have ht : ¬(t.id == s.id) = true := h t (List.mem_cons_self t ts)
    rw [updateSession, if_neg ht,
      ih (fun x hx => h x (List.mem_cons_of_mem t hx))]

/-- When some stored session has the written session's id, `getSession`
finds exactly the written value afterwards. -/
lemma getSession_updateSession {sessions : List Session} {sid : String}
    {s t : Session} (hid : s.id = sid) (h : getSession sessions sid = some t) :
    getSession (updateSession sessions s) sid = some s := by
  induction sessions with
  | nil => simp [getSession, List.find?] at h
  | cons u us ih =>
    by_cases hu : u.id = sid
    · have hcond : (u.id == s.id) = true := by simp [hid, hu]
      rw [updateSession, if_pos hcond]
      simp [getSession, List.find?, hid]
    · have hcond : ¬(u.id == s.id) = true := by simp [hid, hu]
      have hbeq : (u.id == sid) = false := by simp [hu]
      rw [updateSession, if_neg hcond]
      have h' : getSession us sid = some t := by
        simpa [getSession, List.find?, hbeq] using h
      simpa [getSession, List.find?, hbeq] using ih h'

/-- C1: for every Session Repository mutation that touches a session's
images — `createSession`, `addImageToSession`, `updateImageCount` (when the
image exists, the only case that writes), and image removal — the touched
session stored afterwards satisfies `totalCount = sum of images[i].count`. -/
theorem claim1 :
    (∀ sessions freshId createdAt name objectType,
      sessionInvariant (createSession sessions freshId createdAt name objectType).1) ∧
    (∀ sessions sessionId freshImgId timestamp path count detections sessions2,
      addImageToSession sessions sessionId freshImgId timestamp path count detections
          = .ok sessions2 →
      ∃ s, getSession sessions2 sessionId = some s ∧ sessionInvariant s) ∧
    (∀ sessions sessionId imageId newCount corrections sessions2 session img,
      getSession sessions sessionId = some session →
      session.images.find? (fun i => i.id == imageId) = some img →
      updateImageCount sessions sessionId imageId newCount corrections = .ok sessions2 →
      ∃ s, getSession sessions2 sessionId = some s ∧ sessionInvariant s) ∧
    (∀ sessions session imageId,
      sessionInvariant (deleteImageFromSession sessions session imageId).1 ∧
      ∀ t, getSession sessions session.id = some t →
        getSession (deleteImageFromSession sessions session imageId).2 session.id
          = some (deleteImageFromSession sessions session imageId).1) := by
  refine ⟨?_, ?_, ?_, ?_⟩
  · intro sessions freshId createdAt name objectType
    simp [createSession, sessionInvariant, sumCounts]
  · intro sessions sessionId freshImgId timestamp path count detections sessions2 h
    rw [addImageToSession] at h
    cases hg : getSession sessions sessionId with
    | none => rw [hg] at h; exact absurd h (by simp)
    | some session =>
      rw [hg] at h
      simp only [Except.ok.injEq] at h
      subst h
      refine ⟨_, getSession_updateSession ?_ hg, rfl⟩
      show session.id = sessionId
      exact getSession_id hg
  · intro sessions sessionId imageId newCount corrections sessions2 session img hg hf h
    rw [updateImageCount, hg] at h
    simp only [hf, Except.ok.injEq] at h
    subst h
    refine ⟨_, getSession_updateSession ?_ hg, rfl⟩
    show session.id = sessionId
    exact getSession_id hg
  · intro sessions session imageId
    exact ⟨rfl, fun t ht => getSession_updateSession rfl ht⟩

/-- Concrete session used by several witnesses: a freshly created empty
session. -/
def sessionW : Session :=
  { id := "s1", name := "Widgets", objectType := none, createdAt := "t0",
    images := [], totalCount := 0 }

/-- The collection value produced by adding one count-5 image to
`sessionW`. -/
def sessionW5 : Session :=
  { id := "s1", name := "Widgets", objectType := none, createdAt := "t0",
    images := [{ id := "img1", path := "p", count := 5, timestamp := "t1",
                 corrections := 0, detections := [] }],
    totalCount := 5 }

/-- Witness for C1 at a concrete input: adding a count-5 image to a fresh
session yields a stored session satisfying the invariant. -/
theorem claim1_witness :
    ∃ s, getSession [sessionW5] "s1" = some s ∧ sessionInvariant s :=
  claim1.2.1 [sessionW] "s1" "img1" "t1" "p" 5 [] [sessionW5] (by rfl)

/-- C2 counterexample: the claim mandates a `NotFoundError` when no stored
session has the written session's id, but `StorageService.updateSession`
has no failure path at all — with a nonempty collection and an absent id it
returns normally and writes the collection back unchanged. -/
theorem claim2_counterexample :
    updateSession [sessionW]
      { id := "ghost", name := "G", objectType := none, createdAt := "t",
        images := [], totalCount := 0 } = [sessionW] := by rfl

/-- C2 as amended: `updateSession` silently no-ops (no error, collection
unchanged) when no stored session has the given session's id; when one
exists, the stored session is replaced with the given value verbatim —
`totalCount` is not re-derived. -/
theorem claim2 (sessions : List Session) (s : Session) :
    (getSession sessions s.id = none → updateSession sessions s = sessions) ∧
    ∀ t, getSession sessions s.id = some t →
      getSession (updateSession sessions s) s.id = some s := by
  exact ⟨updateSession_of_absent sessions s,
    fun t ht => getSession_updateSession rfl ht⟩

/-- A session with the id of `sessionW` but a hand-edited `totalCount` that
violates the invariant; storing it verbatim shows `updateSession` does not
re-derive totals. -/
def sessionW99 : Session :=
  { id := "s1", name := "Widgets", objectType := none, createdAt := "t0",
    images := [], totalCount := 99 }

/-- Witness for C2 at a concrete input: replacing `sessionW` with a value
whose `totalCount` is 99 stores exactly that value. -/
theorem claim2_witness :
    getSession (updateSession [sessionW] sessionW99) "s1" = some sessionW99 :=
  (claim2 [sessionW] sessionW99).2 sessionW (by rfl)

/-- C3 counterexample: `StorageService.createSession` performs no name
validation — called with the empty name on the empty collection it
succeeds, returns a session whose name is empty, and grows the stored
collection. -/
theorem claim3_counterexample :
    (createSession [] "s1" "t0" "" none).2.length = 1 ∧
    (createSession [] "s1" "t0" "" none).1.name = "" := ⟨rfl, rfl⟩

/-- C3 as amended: the repository-level `createSession` accepts any name;
the empty-after-trim check lives in the UI caller (`NewSessionScreen`),
which alerts and returns without calling the repository — leaving the
collection unchanged — exactly when the trimmed name is empty, and
otherwise creates a session with the trimmed name, empty images and zero
total, prepended to the collection. -/
theorem claim3 (sessions : List Session) (freshId createdAt sessionName objectType : String) :
    ((jsTrim sessionName).isEmpty = true →
      newSessionScreenCreate sessions freshId createdAt sessionName objectType = none) ∧
    ((jsTrim sessionName).isEmpty = false →
      ∃ s, newSessionScreenCreate sessions freshId createdAt sessionName objectType
          = some (s, s :: sessions) ∧
        s.name = jsTrim sessionName ∧ s.images = [] ∧ s.totalCount = 0) := by
  constructor
  · intro h
    simp [newSessionScreenCreate, h]
  · intro h
    exact ⟨{ id := freshId, name := jsTrim sessionName,
             objectType := if (jsTrim objectType).isEmpty then none
               else some (jsTrim objectType),
             createdAt := createdAt, images := [], totalCount := 0 },
      by simp [newSessionScreenCreate, h, createSession], rfl, rfl, rfl⟩

/-- Witness for C3 at concrete inputs: a whitespace-only name is rejected
without touching the collection, and the name `"Widgets"` creates a fresh
empty session. -/
theorem claim3_witness :
    newSessionScreenCreate [] "s1" "t0" "   " "" = none ∧
    ∃ s, newSessionScreenCreate [] "s2" "t0" "Widgets" "" = some (s, s :: []) ∧
      s.name = jsTrim "Widgets" ∧ s.images = [] ∧ s.totalCount = 0 :=
  ⟨(claim3 [] "s1" "t0" "   " "").1 (by decide),
   (claim3 [] "s2" "t0" "Widgets" "").2 (by decide)⟩

/-- A review state reached mid-workflow: one manual detection present, one
correction recorded, automatic mode, not processing. -/
def preStateC4 : ReviewState :=
  { detections := [createManualDetection "d0" 30 40], isProcessing := false,
    manualCorrections := 1, mode := Mode.auto, autoCount := none,
    manualCountInput := "", showApiKeyInput := false,
    imageWidth := 390, imageHeight := 500 }

/-- C4 counterexample: from a pre-request state holding one detection, a
failed detector request leaves the workflow with an empty detection list —
`processImageWithAI` clears the detections before the request and the
failure path stores the empty result — so the workflow is not left in its
pre-request state. -/
theorem claim4_counterexample :
    (processImageWithAI preStateC4 "key" DetectorOutcome.failed).1.detections = [] ∧
    preStateC4.detections.length = 1 := ⟨rfl, rfl⟩

/-- C4 as amended: on a failed detector request the workflow does not crash
and the mode is unchanged, but the detections are cleared at request start
and left empty, with `autoCount` recorded as 0; the failure is surfaced as
a `Detection Error` alert inside `MLService` while the caller receives an
empty list and raises the same `No Objects Detected` alert as a genuine
zero-count response — the resulting workflow state is identical to that of
a response reporting zero objects. -/
theorem claim4 (st : ReviewState) (apiKey : String) (h : apiKey ≠ "") :
    (processImageWithAI st apiKey DetectorOutcome.failed).1.mode = st.mode ∧
    (processImageWithAI st apiKey DetectorOutcome.failed).1.detections = [] ∧
    (processImageWithAI st apiKey DetectorOutcome.failed).1.autoCount = some 0 ∧
    (processImageWithAI st apiKey DetectorOutcome.failed).1.isProcessing = false ∧
    (processImageWithAI st apiKey DetectorOutcome.failed).2.1
      = some MLAlert.detectionError ∧
    (processImageWithAI st apiKey DetectorOutcome.failed).2.2
      = some ReviewAlert.noObjectsDetected ∧
    (processImageWithAI st apiKey DetectorOutcome.failed).1
      = (processImageWithAI st apiKey (DetectorOutcome.responded "0")).1 := by
  have hdet : detectObjects apiKey DetectorOutcome.failed
      = ([], some MLAlert.detectionError) := by
    simp [detectObjects, h]
  have hdet0 : detectObjects apiKey (DetectorOutcome.responded "0") = ([], none) := by
    simp only [detectObjects, if_neg h]
    rfl
  simp [processImageWithAI, h, hdet, hdet0]

/-- Witness for C4 at a concrete input: the failure behaviour at
`preStateC4` with a nonempty API key. -/
theorem claim4_witness :
    (processImageWithAI preStateC4 "key" DetectorOutcome.failed).1.mode
      = preStateC4.mode ∧
    (processImageWithAI preStateC4 "key" DetectorOutcome.failed).1.detections = [] ∧
    (processImageWithAI preStateC4 "key" DetectorOutcome.failed).1.autoCount
      = some 0 ∧
    (processImageWithAI preStateC4 "key" DetectorOutcome.failed).1.isProcessing
      = false ∧
    (processImageWithAI preStateC4 "key" DetectorOutcome.failed).2.1
      = some MLAlert.detectionError ∧
    (processImageWithAI preStateC4 "key" DetectorOutcome.failed).2.2
      = some ReviewAlert.noObjectsDetected ∧
    (processImageWithAI preStateC4 "key" DetectorOutcome.failed).1
      = (processImageWithAI preStateC4 "key" (DetectorOutcome.responded "0")).1 :=
  claim4 preStateC4 "key" (by decide)

/-- C5: the claim describes direct parse, then first-digit-run fallback,
then 0 — which is what the source's `try`/`catch` text was written to do —
but JavaScript's `parseInt` returns `NaN` instead of throwing, so the
`catch` fallback is dead code. On the response `"I count 7 objects"` the
code produces `NaN` (`none`), not the claimed 7; downstream the `NaN`
count yields zero placeholder detections. Direct parses still work. -/
theorem claim5 :
    extractCount "I count 7 objects" = none ∧
    claimedExtractCount "I count 7 objects" = 7 ∧
    detectionsOfCount (extractCount "I count 7 objects") = [] ∧
    extractCount "7" = some 7 :=
  ⟨rfl, by decide, rfl, by decide⟩

/-! Characterisation of the placeholder grid loops. -/

/-- Running the inner column loop from any start emits one placeholder per
remaining column until either the columns or the remaining count run out. -/
lemma genCols_run (count row : Nat) :
    ∀ (colsLeft col index : Nat) (acc : List Detection), index ≤ count →
    genCols count row col colsLeft index acc =
      (acc ++ (List.range (min colsLeft (count - index))).map
          (fun j => placeholderDetection (index + j) row (col + j)),
        index + min colsLeft (count - index)) := by
  intro colsLeft
  induction colsLeft with
  | zero =>
    intro col index acc h
    simp [genCols]
  | succ m ih =>
    intro col index acc h
    by_cases hlt : index < count
    · have hmin : min (m + 1) (count - index) = min m (count - (index + 1)) + 1 := by
        omega
      rw [genCols, if_pos hlt, ih (col + 1) (index + 1) _ hlt, hmin]
      have hfun : ((fun j => placeholderDetection (index + j) row (col + j)) ∘ Nat.succ)
          = fun j => placeholderDetection (index + 1 + j) row (col + 1 + j) := by
        funext j
        simp only [Function.comp]
        rw [show index + Nat.succ j = index + 1 + j by omega,
          show col + Nat.succ j = col + 1 + j by omega]
      simp only [Prod.mk.injEq]
      constructor
      · rw [List.range_succ_eq_map, List.map_cons, List.map_map, hfun]
        simp [List.append_assoc]
      · omega
    · have h0 : count - index = 0 := by omega
      rw [genCols, if_neg hlt]
      simp [h0]

/-- The outer row loop stops as soon as the count is exhausted. -/
lemma genRows_done (count cols : Nat) :
    ∀ (rowsLeft row index : Nat) (acc : List Detection), count ≤ index →
    genRows count cols row rowsLeft index acc = acc := by
  intro rowsLeft
  cases rowsLeft with
  | zero => intro row index acc h; rfl
  | succ m =>
    intro row index acc h
    rw [genRows, if_neg (by omega)]

/-- Running the outer row loop from the start of a row, with enough rows
left to cover the remaining count, emits exactly the remaining placeholders
in row-major order at the grid positions determined by division and
remainder by the column count. -/
lemma genRows_run (count cols : Nat) (hcols : 0 < cols) :
    ∀ (rowsLeft row index : Nat) (acc : List Detection),
    index = row * cols → count ≤ index + rowsLeft * cols →
    genRows count cols row rowsLeft index acc =
      acc ++ (List.range (count - index)).map
        (fun j => placeholderDetection (index + j) ((index + j) / cols)
          ((index + j) % cols)) := by
  intro rowsLeft
  induction rowsLeft with
  | zero =>
    intro row index acc hidx hcov
    have h0 : count - index = 0 := by omega
    simp [genRows, h0]
  | succ m ih =>
    intro row index acc hidx hcov
    rw [Nat.succ_mul] at hcov
    by_cases hlt : index < count
    · rw [genRows]
      simp only [if_pos hlt,
        genCols_run count row cols 0 index acc (Nat.le_of_lt hlt), Nat.zero_add]
      by_cases hfull : index + cols ≤ count
      · have hmin : min cols (count - index) = cols := by omega
        rw [hmin, ih (row + 1) (index + cols) _ (by rw [hidx]; ring) (by omega)]
        rw [List.append_assoc]
        have hsplit : count - index = cols + (count - (index + cols)) := by omega
        rw [hsplit, List.range_add, List.map_append, List.map_map]
        congr 1
        congr 1
        · apply List.map_congr_left
          intro j hj
          have hj' : j < cols := List.mem_range.mp hj
          have hdiv : (index + j) / cols = row := by
            rw [hidx, Nat.mul_comm, Nat.mul_add_div hcols,
              Nat.div_eq_of_lt hj', Nat.add_zero]
          have hmod : (index + j) % cols = j := by
            rw [hidx, Nat.mul_comm, Nat.mul_add_mod, Nat.mod_eq_of_lt hj']
          rw [hdiv, hmod]
        · apply List.map_congr_left
          intro j hj
          simp only [Function.comp]
          rw [show index + (cols + j) = index + cols + j by omega]
      · have hmin : min cols (count - index) = count - index := by omega
        have hidx2 : index + (count - index) = count := by omega
        rw [hmin, hidx2, genRows_done count cols m (row + 1) count _ (Nat.le_refl count)]
        congr 1
        apply List.map_congr_left
        intro j hj
        have hj' : j < count - index := List.mem_range.mp hj
        have hjc : j < cols := by omega
        have hdiv : (index + j) / cols = row := by
          rw [hidx, Nat.mul_comm, Nat.mul_add_div hcols,
            Nat.div_eq_of_lt hjc, Nat.add_zero]
        have hmod : (index + j) % cols = j := by
          rw [hidx, Nat.mul_comm, Nat.mul_add_mod, Nat.mod_eq_of_lt hjc]
        rw [hdiv, hmod]
    · have h0 : count - index = 0 := by omega
      rw [genRows, if_neg hlt]
      simp [h0]

/-- A positive count has a positive column count. -/
lemma gridCols_pos (n : Nat) : 0 < gridCols (n + 1) := by
  unfold gridCols ceilSqrt
  split
  · rename_i h
    rcases Nat.eq_zero_or_pos (Nat.sqrt (n + 1)) with h0 | h0
    · rw [h0] at h; omega
    · exact h0
  · exact Nat.succ_pos _

/-- The grid has at least as many cells as the count. -/
lemma grid_cover (n : Nat) : n + 1 ≤ gridRows (n + 1) * gridCols (n + 1) := by
  have hc := gridCols_pos n
  unfold gridRows
  set c := gridCols (n + 1)
  have h1 : n + 1 + c - 1 = n + c := by omega
  rw [h1]
  have h2 := Nat.div_add_mod (n + c) c
  have h3 : (n + c) % c < c := Nat.mod_lt _ hc
  rw [Nat.mul_comm]
  omega

/-- The full characterisation of the placeholder loops: placeholder `i`
(0-indexed, row-major) sits at grid cell `(i / cols, i % cols)`. -/
lemma generatePlaceholderDetections_eq (count : Nat) :
    generatePlaceholderDetections count =
      (List.range count).map (fun i =>
        placeholderDetection i (i / gridCols count) (i % gridCols count)) := by
  cases count with
  | zero => rfl
  | succ n =>
    unfold generatePlaceholderDetections
    have hc := gridCols_pos n
    have hcov : n + 1 ≤ 0 + gridRows (n + 1) * gridCols (n + 1) := by
      simpa using grid_cover n
    have hrun := genRows_run (n + 1) (gridCols (n + 1)) hc (gridRows (n + 1)) 0 0 []
      (by simp) hcov
    simpa using hrun

/-- The square root of 10 (by its characterisation; `Nat.sqrt` does not
evaluate by reduction). -/
lemma sqrt_ten : Nat.sqrt 10 = 3 := by
  have h1 : Nat.sqrt 10 < 4 := Nat.sqrt_lt.mpr (by norm_num)
  have h2 : 3 ≤ Nat.sqrt 10 := Nat.le_sqrt.mpr (by norm_num)
  omega

/-- The column count computed for 10 objects. -/
lemma gridCols_ten : gridCols 10 = 4 := by
  rw [gridCols, ceilSqrt, sqrt_ten]
  norm_num

/-- C6: for every count, placeholder synthesis returns exactly `count`
detections, placeholder `i` (0-indexed, row-major) sitting at grid cell
`(row, col) = (i / cols, i % cols)` with `cols = ceil(sqrt(count))` and
uniform 100-pixel spacing from offset 50 at fixed 60×60 size, every
placeholder carrying confidence 1.0 and `manual = false`; in particular
`count = 10` gives a 4-column, 3-row grid of 10 placeholders. -/
theorem claim6 :
    (∀ count, generatePlaceholderDetections count =
      (List.range count).map (fun i =>
        placeholderDetection i (i / gridCols count) (i % gridCols count))) ∧
    (∀ index row col,
      (placeholderDetection index row col).confidence = 1 ∧
      (placeholderDetection index row col).manual = some false ∧
      (placeholderDetection index row col).bbox =
        { x := 50 + (col : ℚ) * 100, y := 50 + (row : ℚ) * 100,
          width := 60, height := 60 }) ∧
    gridCols 10 = 4 ∧ gridRows 10 = 3 ∧
    (generatePlaceholderDetections 10).length = 10 := by
  refine ⟨generatePlaceholderDetections_eq,
    fun index row col => ⟨rfl, rfl, rfl⟩, gridCols_ten, ?_, ?_⟩
  · rw [gridRows, gridCols_ten]
  · rw [generatePlaceholderDetections_eq 10]
    simp

/-- C10: placeholder synthesis is total at `count = 0` and returns the
empty list. In the source, `cols = Math.ceil(Math.sqrt(0)) = 0` makes
`rows = Math.ceil(0 / 0) = NaN`; the loop guard `row < rows` compares
against `NaN`, which is false, so both grid loops execute zero iterations —
modelled here by `gridRows 0 = 0` (see `gridRows`). -/
theorem claim10 :
    generatePlaceholderDetections 0 = [] ∧ gridCols 0 = 0 ∧ gridRows 0 = 0 :=
  ⟨rfl, rfl, rfl⟩

/-! CSV export. -/

/-- Folding string concatenation from any accumulator is the accumulator
followed by the join. -/
lemma foldl_append_eq_join (l : List String) :
    ∀ acc : String, List.foldl (· ++ ·) acc l = acc ++ String.join l := by
  induction l with
  | nil =>
    intro acc
    show acc = acc ++ ""
    rw [String.append_empty]
  | cons a t ih =>
    intro acc
    show List.foldl (· ++ ·) (acc ++ a) t = acc ++ String.join (a :: t)
    rw [ih (acc ++ a)]
    have hj : String.join (a :: t) = a ++ String.join t := by
      show List.foldl (· ++ ·) ("" ++ a) t = _
      rw [ih ("" ++ a), String.empty_append]
    rw [hj, String.append_assoc]

/-- Join of a cons. -/
lemma join_cons (a : String) (l : List String) :
    String.join (a :: l) = a ++ String.join l := by
  show List.foldl (· ++ ·) ("" ++ a) l = _
  rw [foldl_append_eq_join l ("" ++ a), String.empty_append]

/-- Join of nil. -/
lemma join_nil : String.join ([] : List String) = "" := rfl

/-- Join distributes over list append. -/
lemma join_append_eq (l1 l2 : List String) :
    String.join (l1 ++ l2) = String.join l1 ++ String.join l2 := by
  induction l1 with
  | nil => rw [List.nil_append, join_nil, String.empty_append]
  | cons a t ih =>
    rw [List.cons_append, join_cons, join_cons, ih, String.append_assoc]

/-- The per-image fold of `exportSessionAsCSV`, rewritten as a join of the
rendered rows. -/
lemma csv_foldl (images : List ImageCount) :
    ∀ acc : String,
    images.foldl
      (fun csv img =>
        csv ++ img.id ++ "," ++ toString img.count ++ "," ++ img.timestamp
          ++ "," ++ toString img.corrections ++ "\n") acc
    = acc ++ String.join (images.map (fun img =>
        img.id ++ "," ++ toString img.count ++ "," ++ img.timestamp
          ++ "," ++ toString img.corrections ++ "\n")) := by
  induction images with
  | nil =>
    intro acc
    show acc = acc ++ String.join []
    rw [join_nil, String.append_empty]
  | cons a t ih =>
    intro acc
    simp only [List.foldl_cons, List.map_cons]
    rw [ih, join_cons]
    simp [String.append_assoc]

/-- C7: for a stored session, `exportSessionAsCSV` produces exactly the
header line, one line per image in session order rendering id, count,
timestamp and corrections literally, a blank line, and the
`Total Count:,<totalCount>` line — each line terminated by a newline; for
an absent session id it fails with the not-found error. -/
theorem claim7 (sessions : List Session) (sessionId : String) :
    (getSession sessions sessionId = none →
      exportSessionAsCSV sessions sessionId = .error .notFound) ∧
    (∀ s, getSession sessions sessionId = some s →
      exportSessionAsCSV sessions sessionId = .ok (String.join
        ((["Image ID,Count,Timestamp,Corrections"] ++
          s.images.map (fun img =>
            img.id ++ "," ++ toString img.count ++ "," ++ img.timestamp
              ++ "," ++ toString img.corrections) ++
          ["", "Total Count:," ++ toString s.totalCount]).map
          (fun line => line ++ "\n")))) := by
  constructor
  · intro h
    rw [exportSessionAsCSV, h]
  · intro s h
    rw [exportSessionAsCSV, h]
    simp only [Except.ok.injEq]
    rw [csv_foldl]
    simp [join_append_eq, join_cons, join_nil, Function.comp,
      ← String.append_assoc, String.append_empty, String.empty_append]
    have hsplit : ∀ X : String, X ++ "\nTotal Count:," = X ++ "\n" ++ "Total Count:," := by
      intro X
      rw [String.append_assoc]
      rfl
    rw [hsplit]
    congr 5

/-- A session with two images, counts 5 and 3, corrections 0 and 1. -/
def sessionCSV : Session :=
  { id := "sc", name := "CSV", objectType := none, createdAt := "t0",
    images := [
      { id := "i1", path := "p1", count := 5, timestamp := "T1",
        corrections := 0, detections := [] },
      { id := "i2", path := "p2", count := 3, timestamp := "T2",
        corrections := 1, detections := [] }],
    totalCount := 8 }

/-- Witness for C7 at a concrete input: the spec's two-image example
renders to the exact CSV text. -/
theorem claim7_witness :
    exportSessionAsCSV [sessionCSV] "sc"
      = .ok "Image ID,Count,Timestamp,Corrections\ni1,5,T1,0\ni2,3,T2,1\n\nTotal Count:,8\n" := by
  have h := (claim7 [sessionCSV] "sc").2 sessionCSV (by rfl)
  rw [h]
  rfl

/-- C8: in manual mode, typing text that parses to a positive count
different from the current number of detections clears the detection list
and resets corrections to 0 (while storing the typed text); typing text
that parses to exactly the current number of detections leaves detections
and corrections untouched. -/
theorem claim8 (st : ReviewState) (text : String) :
    (jsParseIntOr0 text > 0 → jsParseIntOr0 text ≠ (st.detections.length : Int) →
      handleManualCountChange st text =
        { st with manualCountInput := text, detections := [],
                  manualCorrections := 0 }) ∧
    (jsParseIntOr0 text = (st.detections.length : Int) →
      handleManualCountChange st text = { st with manualCountInput := text }) := by
  constructor
  · intro h1 h2
    unfold handleManualCountChange
    rw [if_pos ⟨h1, h2⟩]
  · intro h
    unfold handleManualCountChange
    rw [if_neg (fun hc => hc.2 h)]

/-- A manual-mode review state holding two tap-added detections. -/
def stC8 : ReviewState :=
  { detections := [createManualDetection "m1" 100 200,
                   createManualDetection "m2" 110 210],
    isProcessing := false, manualCorrections := 2, mode := Mode.manual,
    autoCount := none, manualCountInput := "2", showApiKeyInput := false,
    imageWidth := 390, imageHeight := 500 }

/-- Witness for C8 at concrete inputs: with 2 detections, typing `"5"`
clears them and resets corrections; typing `"2"` changes only the stored
text. -/
theorem claim8_witness :
    handleManualCountChange stC8 "5"
      = { stC8 with manualCountInput := "5", detections := [],
                    manualCorrections := 0 } ∧
    handleManualCountChange stC8 "2" = { stC8 with manualCountInput := "2" } :=
  ⟨(claim8 stC8 "5").1 (by decide) (by decide),
   (claim8 stC8 "2").2 (by decide)⟩

/-- Removing by id drops exactly the matching elements: the filtered length
plus the match count is the original length. -/
lemma detections_filter_length (l : List Detection) (id : String) :
    (l.filter (fun d => d.id != id)).length
      + l.countP (fun d => d.id == id) = l.length := by
  induction l with
  | nil => rfl
  | cons a t ih =>
    cases hb : (a.id == id) with
    | true =>
      simp [List.filter_cons, List.countP_cons, hb, bne] at ih ⊢
      omega
    | false =>
      simp [List.filter_cons, List.countP_cons, hb, bne] at ih ⊢
      omega

/-- The state produced by `removeDetection` in manual mode, written out. -/
lemma removeDetection_manual (st : ReviewState) (id : String)
    (hmode : st.mode = Mode.manual) :
    removeDetection st id =
      { st with detections := st.detections.filter (fun d => d.id != id),
                manualCorrections := st.manualCorrections + 1,
                manualCountInput :=
                  toString (st.detections.filter (fun d => d.id != id)).length } := by
  unfold removeDetection
  rw [if_pos hmode]

/-- C9: in manual mode while not processing, each tap appends exactly one
manual detection of default size 40 centred at the tapped point (the scale
factors are 1 in every state `setupImage` can produce, where
`imageSize.width = screenWidth`), increments corrections and re-syncs the
numeric field; each removal of a uniquely-identified detection removes
exactly it, increments corrections and re-syncs the numeric field; and
from the initial state, three adds followed by one remove leave 2
detections, the numeric field `"2"` and corrections 4. -/
theorem claim9 :
    (∀ (st : ReviewState) (screenWidth locationX locationY : ℚ) (freshId : String),
      st.mode = Mode.manual → st.isProcessing = false →
      st.imageWidth = screenWidth → screenWidth ≠ 0 → st.imageHeight ≠ 0 →
      handleImagePress st screenWidth locationX locationY freshId =
        { st with
            detections := st.detections
              ++ [createManualDetection freshId locationX locationY],
            manualCorrections := st.manualCorrections + 1,
            manualCountInput := toString (st.detections.length + 1) }) ∧
    (∀ (freshId : String) (x y : ℚ),
      (createManualDetection freshId x y).bbox.x
          + (createManualDetection freshId x y).bbox.width / 2 = x ∧
      (createManualDetection freshId x y).bbox.y
          + (createManualDetection freshId x y).bbox.height / 2 = y ∧
      (createManualDetection freshId x y).bbox.width = 40 ∧
      (createManualDetection freshId x y).bbox.height = 40 ∧
      (createManualDetection freshId x y).manual = some true) ∧
    (∀ (st : ReviewState) (id : String),
      st.mode = Mode.manual →
      st.detections.countP (fun d => d.id == id) = 1 →
      (removeDetection st id).detections.length + 1 = st.detections.length ∧
      (∀ d, d ∈ (removeDetection st id).detections
          ↔ d ∈ st.detections ∧ d.id ≠ id) ∧
      (removeDetection st id).manualCorrections = st.manualCorrections + 1 ∧
      (removeDetection st id).manualCountInput
        = toString (removeDetection st id).detections.length) := by
  refine ⟨?_, ?_, ?_⟩
  · intro st screenWidth locationX locationY freshId h1 h2 h3 h4 h5
    unfold handleImagePress
    rw [if_pos ⟨h1, h2⟩]
    simp only []
    rw [h3, div_self h4, div_self h5, mul_one, mul_one]
  · intro freshId x y
    refine ⟨?_, ?_, rfl, rfl, rfl⟩
    · show x - 40 / 2 + 40 / 2 = x
      ring
    · show y - 40 / 2 + 40 / 2 = y
      ring
  · intro st id hmode hcount
    rw [removeDetection_manual st id hmode]
    refine ⟨?_, ?_, rfl, rfl⟩
    · show (st.detections.filter (fun d => d.id != id)).length + 1
        = st.detections.length
      have := detections_filter_length st.detections id
      omega
    · intro d
      simp [List.mem_filter]

/-- The initial review state for a photo: manual mode, nothing counted,
image sized by `setupImage` (display width = screen width). -/
def reviewStart : ReviewState :=
  { detections := [], isProcessing := false, manualCorrections := 0,
    mode := Mode.manual, autoCount := none, manualCountInput := "",
    showApiKeyInput := false, imageWidth := 390, imageHeight := 500 }

/-- Witness for C9 at concrete inputs: one tap on the initial state appends
the centred manual detection and syncs the field to `"1"`; and the spec's
three-adds-one-remove scenario ends with 2 detections, field `"2"`,
corrections 4. -/
theorem claim9_witness :
    (handleImagePress reviewStart 390 100 200 "w1" =
      { reviewStart with
          detections := reviewStart.detections
            ++ [createManualDetection "w1" 100 200],
          manualCorrections := reviewStart.manualCorrections + 1,
          manualCountInput := toString (reviewStart.detections.length + 1) }) ∧
    ((removeDetection
        (handleImagePress
          (handleImagePress
            (handleImagePress reviewStart 390 100 200 "m1")
            390 110 210 "m2")
          390 120 220 "m3")
        "m2").detections.length = 2 ∧
      (removeDetection
        (handleImagePress
          (handleImagePress
            (handleImagePress reviewStart 390 100 200 "m1")
            390 110 210 "m2")
          390 120 220 "m3")
        "m2").manualCountInput = "2" ∧
      (removeDetection
        (handleImagePress
          (handleImagePress
            (handleImagePress reviewStart 390 100 200 "m1")
            390 110 210 "m2")
          390 120 220 "m3")
        "m2").manualCorrections = 4) :=
  ⟨claim9.1 reviewStart 390 100 200 "w1" rfl rfl rfl (by decide) (by decide),
   rfl, rfl, rfl⟩

end Genauo
